import Mathlib

/-!
Verification of the authentication and access-control layer of the
Document-Verification backend (app/core/security.py,
app/services/auth/jwt_handlers.py, app/services/auth/auth_service.py,
app/core/dependencies.py), as a shallow embedding.

Modelling conventions:
* Python values appearing in JWT payload dictionaries are modelled by
  `JValue` (strings and integers); a Python dict is an association list
  with dict update semantics.
* Wall-clock time (`datetime.now()`) is an explicit `Int` parameter
  counting seconds; `timedelta` values are `Int` seconds.
* A Python function that may raise returns `Except`; a `try/except`
  block is a `match` on that result.  `HTTPException(status, detail,
  headers)` is the record `HTTPException`.
* The PyJWT library is modelled symbolically: `jwt.encode` produces a
  `TokenStr.signed` record remembering payload, key and algorithm, and
  `jwt.decode` verifies key, algorithm membership and expiration
  exactly as the library does (a token is expired when its `exp` claim
  is strictly below the current time; `ExpiredSignatureError` is a
  subclass of `InvalidTokenError`, so both are `JwtError`s here).
  Arbitrary non-token strings are `TokenStr.garbage`.
-/

namespace DocVerify

/-- A JSON-ish claim value stored in a JWT payload dict. -/
inductive JValue where
  | str : String → JValue
  | int : Int → JValue
deriving DecidableEq, Repr

/-- Python truthiness of a claim value: empty string and zero are falsy. -/
def JValue.truthy : JValue → Bool
  | .str s => s ≠ ""
  | .int n => n ≠ 0

/-- A Python dict with string keys, as an insertion-ordered association list. -/
def JDict := List (String × JValue)

instance : DecidableEq JDict := by
  unfold JDict
  infer_instance

/-- Dict lookup: `d.get(k)` returns the value of the first matching key. -/
def JDict.get (d : JDict) (k : String) : Option JValue :=
  match d with
  | [] => none
  | (k₀, v₀) :: rest => if k₀ = k then some v₀ else JDict.get rest k

/-- Dict membership test: `k in d`. -/
def JDict.containsKey (d : JDict) (k : String) : Bool :=
  (d.get k).isSome

/-- Dict update `d[k] = v`: replaces the first binding of `k`, else appends. -/
def JDict.set (d : JDict) (k : String) (v : JValue) : JDict :=
  match d with
  | [] => [(k, v)]
  | (k₀, v₀) :: rest =>
      if k₀ = k then (k₀, v) :: rest else (k₀, v₀) :: JDict.set rest k v

/-- Python exceptions that the security layer can see from its libraries. -/
inductive PyExc where
  | valueError : String → PyExc
  | otherExc : String → PyExc
deriving DecidableEq, Repr

/-- Model of `fastapi.HTTPException`: status code, detail message, and the optional
`WWW-Authenticate` header value. -/
structure HTTPException where
  status_code : Nat
  detail : String
  www_authenticate : Option String := none
deriving DecidableEq, Repr

/-- An error escaping a service function: either a raised `HTTPException`
or a raised plain Python exception. -/
inductive PyError where
  | http : HTTPException → PyError
  | exc : PyExc → PyError
deriving DecidableEq, Repr

/-- Python `str.strip()`: removes leading and trailing whitespace
(operating on the code points of the string). -/
def pyStrip (s : String) : String :=
  ⟨((s.data.dropWhile Char.isWhitespace).reverse.dropWhile
      Char.isWhitespace).reverse⟩

/-- Python `str.startswith(p)`. -/
def pyStartsWith (s p : String) : Bool :=
  decide (s.data.take p.data.length = p.data)

/-- Python slicing `s[n:]` (by code points). -/
def pyDropChars (s : String) (n : Nat) : String :=
  ⟨s.data.drop n⟩

/-- A signed JWT: the payload together with the key and algorithm used to
produce the signature (symbolic model of the encoded string). -/
structure SignedToken where
  payload : JDict
  key : String
  alg : String
deriving DecidableEq

/-- A string presented as a token: either a well-formed signed JWT or any
other string. -/
inductive TokenStr where
  | signed : SignedToken → TokenStr
  | garbage : String → TokenStr
deriving DecidableEq

/-- PyJWT decoding failures; both are subclasses of `InvalidTokenError`. -/
inductive JwtError where
  | expiredSignature
  | invalidToken
deriving DecidableEq, Repr

/-- Model of `jwt.encode(payload, key, algorithm)`. -/
def jwtEncode (payload : JDict) (key : String) (alg : String) : TokenStr :=
  .signed ⟨payload, key, alg⟩

/-- Model of `jwt.decode(token, key, algorithms)` evaluated at time `now`:
rejects malformed strings, wrong keys and algorithms not in the allow list,
raises `ExpiredSignatureError` when the `exp` claim is below `now`, and
otherwise returns the payload. -/
def jwtDecode (tok : TokenStr) (key : String) (algs : List String) (now : Int) :
    Except JwtError JDict :=
  match tok with
  | .garbage _ => .error .invalidToken
  | .signed t =>
      if t.key ≠ key then .error .invalidToken
      else if ¬ (algs.contains t.alg) then .error .invalidToken
      else
        match t.payload.get "exp" with
        | some (.int exp) =>
            if exp < now then .error .expiredSignature else .ok t.payload
        | _ => .ok t.payload

/-- The `exp` claim of a token, when it is a signed token carrying an
integer `exp` (used to state expiration properties). -/
def TokenStr.expClaim : TokenStr → Option Int
  | .signed t =>
      match t.payload.get "exp" with
      | some (.int e) => some e
      | _ => none
  | .garbage _ => none

/-- JWT configuration drawn from `Settings` (`app/core/config.py`):
`SECRET_KEY`, `ALGORITHM` (default `"HS256"`), `ACCESS_TOKEN_EXP_MIN`
(default `30`). -/
structure JWTConfig where
  SECRET_KEY : String
  ALGORITHM : String := "HS256"
  ACCESS_TOKEN_EXPIRE_MINUTES : Int := 30
deriving DecidableEq, Repr

namespace JWTHandler

/-- Model of `JWTHandler.create_access_token(data, expires_delta)` evaluated at time
`now`: copies `data`, sets `expire = now + (expires_delta or
timedelta(minutes=ACCESS_TOKEN_EXPIRE_MINUTES))` — note that a zero
`timedelta` is falsy in Python, so `expires_delta = timedelta(0)` falls
back to the configured default — stores it under `"exp"` and signs with
the configured secret and algorithm. -/
def create_access_token (cfg : JWTConfig) (data : JDict)
    (expires_delta : Option Int) (now : Int) : TokenStr :=
  let to_encode := data
  let expire : Int := now +
    (match expires_delta with
     | some d => if d = 0 then cfg.ACCESS_TOKEN_EXPIRE_MINUTES * 60 else d
     | none => cfg.ACCESS_TOKEN_EXPIRE_MINUTES * 60)
  let to_encode := to_encode.set "exp" (.int expire)
  jwtEncode to_encode cfg.SECRET_KEY cfg.ALGORITHM

/-- Model of `JWTHandler.decode_access_token(token)` evaluated at time `now`:
decodes with the configured secret and algorithm; on any
`InvalidTokenError` (including expiry) returns `None`, otherwise returns
`payload.get("sub")` — which is `None` when the claim is missing and the
claim value itself otherwise, even when that value is the empty string. -/
def decode_access_token (cfg : JWTConfig) (token : TokenStr) (now : Int) :
    Option JValue :=
  match jwtDecode token cfg.SECRET_KEY [cfg.ALGORITHM] now with
  | .ok payload => payload.get "sub"
  | .error _ => none

end JWTHandler

/-- Model of `Security` (`app/core/security.py`): holds the injected password
hashing and verification callables (which may raise) and a `JWTHandler`
configuration. -/
structure Security where
  _get_password_hash : String → Except PyExc String
  _verify_password : String → String → Except PyExc Bool
  jwt_handler : JWTConfig

namespace Security

/-- Model of `Security.hash_password`: raises `ValueError` on an empty password;
otherwise calls the hashing callable and re-raises any exception it
throws (`except ValueError: raise` / `except Exception: raise`). -/
def hash_password (sec : Security) (password : String) :
    Except PyExc String :=
  if password = "" then
    .error (.valueError "Password must be a non-empty string")
  else
    match sec._get_password_hash password with
    | .ok h => .ok h
    | .error e => .error e

/-- Model of `Security.verify_password`: returns `False` when either input is
empty; otherwise calls the verification callable, converting any raised
exception to `False`. -/
def verify_password (sec : Security) (plain_password hashed_password : String) :
    Except PyExc Bool :=
  if plain_password = "" ∨ hashed_password = "" then .ok false
  else
    match sec._verify_password plain_password hashed_password with
    | .ok b => .ok b
    | .error _ => .ok false

/-- Model of `Security.create_access_token`: raises `HTTPException(400)` when the
payload has no `"sub"` key (presence check only); otherwise delegates to
`JWTHandler.create_access_token` (signing cannot fail in the model, so
the 500 fallback branch is not reachable). -/
def create_access_token (sec : Security) (data : JDict)
    (expires_delta : Option Int) (now : Int) :
    Except HTTPException TokenStr :=
  if ¬ data.containsKey "sub" then
    .error ⟨400, "Payload must include sub", none⟩
  else
    .ok (JWTHandler.create_access_token sec.jwt_handler data expires_delta now)

/-- Model of `Security.decode_access_token`: calls the handler inside a `try` that
maps `ExpiredSignatureError`, `InvalidTokenError` and any other exception
to `None`; the handler itself already returns `None` on decode failure. -/
def decode_access_token (sec : Security) (token : TokenStr) (now : Int) :
    Except PyExc (Option JValue) :=
  .ok (JWTHandler.decode_access_token sec.jwt_handler token now)

end Security

/-- A row of the `users` table (`app/db/models/user.py`), restricted to the
fields the authentication layer reads. -/
structure UserRec where
  user_id : Int
  username : String
  email : String
  hashed_password : String
  is_active : Bool
  is_superuser : Bool
  created_at : Int
  updated_at : Int
deriving DecidableEq, Repr

/-- Model of `UserResponse` (`app/schemas/user.py`): the identity value handed to
request handlers. -/
structure UserResponse where
  user_id : Int
  username : String
  email : String
  is_active : Bool
  is_superuser : Bool
  created_at : Int
  updated_at : Int
deriving DecidableEq, Repr

/-- Model of `UserResponse.model_validate(user)` / `UserResponse.from_orm(user)`:
copies the ORM row field by field. -/
def UserResponse.model_validate (u : UserRec) : UserResponse :=
  ⟨u.user_id, u.username, u.email, u.is_active, u.is_superuser,
   u.created_at, u.updated_at⟩

/-- The user repository seen through `UserCRUD(db)`: the authentication
layer only calls `get_user_by_username`.  The key has type `JValue`
because the decoded `"sub"` claim is passed to it unconverted (Python
duck typing); service code looking up a string `u` passes `.str u`. -/
structure DB where
  get_user_by_username : JValue → Option UserRec

namespace AuthService

/-- Model of `AuthService.authenticate_user(db, username, password)` evaluated at
time `now`: rejects empty credentials with 400; collapses both a missing
user record and a failed password verification into the same
`HTTPException(401, "Incorrect username or password")` with a
`WWW-Authenticate: Bearer` header; on success issues a token for
`{"sub": user.username}` with the default ttl and returns it with token
type `"bearer"`. -/
def authenticate_user (sec : Security) (db : DB)
    (username password : String) (now : Int) :
    Except PyError (TokenStr × String) :=
  if username = "" ∨ password = "" then
    .error (.http ⟨400, "Username and password required", none⟩)
  else
    match db.get_user_by_username (.str username) with
    | none =>
        .error (.http ⟨401, "Incorrect username or password", some "Bearer"⟩)
    | some user =>
        match sec.verify_password password user.hashed_password with
        | .error e => .error (.exc e)
        | .ok false =>
            .error (.http ⟨401, "Incorrect username or password", some "Bearer"⟩)
        | .ok true =>
            match sec.create_access_token [("sub", .str user.username)] none now with
            | .error e => .error (.http e)
            | .ok access_token => .ok (access_token, "bearer")

/-- Model of `AuthService.get_current_user(db, token)` evaluated at time `now`:
decodes the token and rejects with 401 only when the result `is None`
(an empty-string subject passes this check); then looks the subject up
in the repository, rejecting with 404 when no user exists. -/
def get_current_user (sec : Security) (db : DB) (token : TokenStr)
    (now : Int) : Except PyError UserResponse :=
  match sec.decode_access_token token now with
  | .error e => .error (.exc e)
  | .ok username =>
      match username with
      | none =>
          .error (.http ⟨401, "Invalid token", some "Bearer"⟩)
      | some uname =>
          match db.get_user_by_username uname with
          | none => .error (.http ⟨404, "User not found", none⟩)
          | some user => .ok (UserResponse.model_validate user)

end AuthService

namespace Dependencies

/-- The part of `dependencies.get_current_user` after header parsing:
decode the token, reject with 401 when the decoded subject is falsy
(`if not username:` — `None` or an empty/zero claim value), look the
subject up, reject with 404 when absent, else build the response model. -/
def resolve_token (sec : Security) (db : DB) (token : TokenStr)
    (now : Int) : Except PyError UserResponse :=
  match sec.decode_access_token token now with
  | .error e => .error (.exc e)
  | .ok username =>
      match username with
      | none => .error (.http ⟨401, "Invalid or expired token", none⟩)
      | some uname =>
          if ¬ uname.truthy then
            .error (.http ⟨401, "Invalid or expired token", none⟩)
          else
            match db.get_user_by_username uname with
            | none => .error (.http ⟨404, "User not found", none⟩)
            | some user => .ok (UserResponse.model_validate user)

/-- Model of `dependencies.get_current_user(token, db)` evaluated at time `now`,
where `token` is the raw `Authorization` header string and `tokenOf`
interprets a token string as the symbolic token it denotes: rejects a
header that is empty or whose stripped form does not start with
`"Bearer "`; strips the first 7 characters and surrounding whitespace;
rejects an empty remainder; then proceeds as `resolve_token`. -/
def get_current_user (sec : Security) (db : DB) (tokenOf : String → TokenStr)
    (token : String) (now : Int) : Except PyError UserResponse :=
  if token = "" ∨ ¬ (pyStartsWith (pyStrip token) "Bearer ") then
    .error (.http ⟨401, "Invalid token format", none⟩)
  else
    let tok := pyStrip (pyDropChars (pyStrip token) 7)
    if tok = "" then
      .error (.http ⟨401, "Token cannot be empty", none⟩)
    else
      resolve_token sec db (tokenOf tok) now

/-- Model of `dependencies.get_admin_user(current_user)`: rejects with 403 unless
`current_user.is_superuser`, else returns the identity unchanged. -/
def get_admin_user (current_user : UserResponse) :
    Except HTTPException UserResponse :=
  if ¬ current_user.is_superuser then
    .error ⟨403, "Admin access required", none⟩
  else
    .ok current_user

end Dependencies

/-! Concrete fixtures used to evaluate the model at specific inputs. -/

/-- A concrete JWT configuration (secret `"secret"`, default algorithm and
ttl from `Settings`). -/
def testCfg : JWTConfig := ⟨"secret", "HS256", 30⟩

/-- A `Security` instance whose injected hasher prepends `"h"` and whose
verifier checks that shape; both callables are total. -/
def testSecurity : Security :=
  ⟨fun p => .ok ("h" ++ p), fun p h => .ok (decide (h = "h" ++ p)), testCfg⟩

/-- A `Security` instance whose injected hashing and verification
callables always raise, standing for a failing bcrypt backend. -/
def badSecurity : Security :=
  ⟨fun _ => .error (.otherExc "bcrypt failure"),
   fun _ _ => .error (.otherExc "bcrypt failure"), testCfg⟩

/-- A repository with no users. -/
def emptyDB : DB := ⟨fun _ => none⟩

/-! Dictionary lemmas. -/

/-- Reading back the key just written by a dict update. -/
theorem JDict.get_set_self (d : JDict) (k : String) (v : JValue) :
    (d.set k v).get k = some v := by
  induction d with
  | nil => simp [JDict.set, JDict.get]
  | cons hd tl ih =>
      obtain ⟨k₀, v₀⟩ := hd
      by_cases h : k₀ = k <;> simp [JDict.set, JDict.get, h, ih]

/-- A dict update leaves other keys unchanged. -/
theorem JDict.get_set_ne (d : JDict) (k k₂ : String) (v : JValue)
    (h : k ≠ k₂) : (d.set k v).get k₂ = d.get k₂ := by
  induction d with
  | nil => simp [JDict.set, JDict.get, h]
  | cons hd tl ih =>
      obtain ⟨k₀, v₀⟩ := hd
      by_cases h₀ : k₀ = k
      · subst h₀; simp [JDict.set, JDict.get, h]
      · simp [JDict.set, JDict.get, h₀, ih]

/-! Claim theorems. -/

/-- Claim C1 — token round-trip: for a non-empty subject `u` and a
positive ttl, encoding `{"sub": u}` and decoding the result with the same
configuration, at any time strictly before the expiration, returns `u`. -/
theorem token_roundtrip (cfg : JWTConfig) (u : String) (ttl now t : Int)
    (_hu : u ≠ "") (httl : 0 < ttl) (ht : t < now + ttl) :
    JWTHandler.decode_access_token cfg
      (JWTHandler.create_access_token cfg [("sub", .str u)] (some ttl) now) t
      = some (.str u) := by
  have h0 : ¬ ttl = 0 := by omega
  have h1 : ¬ now + ttl < t := by omega
  simp [JWTHandler.create_access_token, JWTHandler.decode_access_token,
    jwtEncode, jwtDecode, JDict.set, JDict.get, h0, h1]

/-- Claim C1 witness: concrete round trip for subject `"alice"`, a
30-minute ttl, issuance at time 0 and decoding at time 100. -/
theorem token_roundtrip_witness :
    JWTHandler.decode_access_token testCfg
      (JWTHandler.create_access_token testCfg [("sub", .str "alice")]
        (some 1800) 0) 100
      = some (.str "alice") :=
  token_roundtrip testCfg "alice" 1800 0 100 (by decide) (by decide) (by decide)

/-- The model `jwtDecode` only succeeds on well-formed tokens, and then returns the
embedded payload. -/
theorem jwtDecode_ok_payload (tok : TokenStr) (key : String)
    (algs : List String) (now : Int) (payload : JDict)
    (h : jwtDecode tok key algs now = .ok payload) :
    ∃ t, tok = .signed t ∧ payload = t.payload := by
  cases tok with
  | garbage s => simp [jwtDecode] at h
  | signed t =>
      refine ⟨t, rfl, ?_⟩
      simp only [jwtDecode] at h
      split at h
      · exact Except.noConfusion h
      · split at h
        · exact Except.noConfusion h
        · split at h
          · split at h
            · exact Except.noConfusion h
            · injection h with h₂; exact h₂.symm
          · injection h with h₂; exact h₂.symm

/-- The model `jwtDecode` rejects a token signed with the wrong key. -/
theorem jwtDecode_wrong_key (t : SignedToken) (key : String)
    (algs : List String) (now : Int) (h : t.key ≠ key) :
    jwtDecode (.signed t) key algs now = .error .invalidToken := by
  simp [jwtDecode, h]

/-- The model `jwtDecode` never succeeds on a token whose `exp` claim is below the
current time. -/
theorem jwtDecode_expired (t : SignedToken) (key : String)
    (algs : List String) (now e : Int)
    (hexp : t.payload.get "exp" = some (.int e)) (hlt : e < now)
    (payload : JDict) :
    jwtDecode (.signed t) key algs now ≠ .ok payload := by
  intro h
  simp only [jwtDecode] at h
  split at h
  · exact Except.noConfusion h
  · split at h
    · exact Except.noConfusion h
    · rw [hexp] at h
      simp [hlt] at h

/-- Claim C2 — uniform decode failure: whenever the presented token is
signed with a key other than the configured secret, or is expired at the
time of the call, or carries no `"sub"` claim, `decode_access_token`
returns `None` without raising.  (A malformed token string satisfies the
first and third cases vacuously and also yields `None`.) -/
theorem decode_uniform_failure (sec : Security) (tok : TokenStr) (now : Int)
    (h : (∀ t, tok = .signed t → t.key ≠ sec.jwt_handler.SECRET_KEY)
       ∨ (∃ t e, tok = .signed t ∧ t.payload.get "exp" = some (.int e) ∧ e < now)
       ∨ (∀ t, tok = .signed t → t.payload.get "sub" = none)) :
    sec.decode_access_token tok now = .ok none := by
  suffices hs : JWTHandler.decode_access_token sec.jwt_handler tok now = none by
    simp [Security.decode_access_token, hs]
  unfold JWTHandler.decode_access_token
  cases hd : jwtDecode tok sec.jwt_handler.SECRET_KEY
      [sec.jwt_handler.ALGORITHM] now with
  | error e => rfl
  | ok payload =>
      obtain ⟨t, rfl, hp⟩ := jwtDecode_ok_payload _ _ _ _ _ hd
      rcases h with h₁ | ⟨t₂, e, heq, hexp, hlt⟩ | h₃
      · rw [jwtDecode_wrong_key t _ _ _ (h₁ t rfl)] at hd
        exact Except.noConfusion hd
      · cases heq
        exact absurd hd (jwtDecode_expired t _ _ _ _ hexp hlt payload)
      · simpa [hp] using h₃ t rfl

/-- Claim C2 witness: a token signed with key `"other"` instead of the
configured `"secret"` decodes to `None`. -/
theorem decode_uniform_failure_witness :
    Security.decode_access_token testSecurity
      (.signed ⟨[("sub", .str "a"), ("exp", .int 100)], "other", "HS256"⟩) 0
      = .ok none :=
  decode_uniform_failure testSecurity
    (.signed ⟨[("sub", .str "a"), ("exp", .int 100)], "other", "HS256"⟩) 0
    (Or.inl (by intro t ht; cases ht; decide))

/-- Claim C3 — user-enumeration resistance: with non-empty credentials, an
authentication attempt against a repository with no record for the
username and one against a repository holding a record whose password
verification returns `False` raise the same `HTTPException`: status 401,
detail `"Incorrect username or password"`, header
`WWW-Authenticate: Bearer`. -/
theorem authenticate_enumeration_resistant (sec : Security) (db₁ db₂ : DB)
    (u₁ p₁ u₂ p₂ : String) (now₁ now₂ : Int)
    (hu₁ : u₁ ≠ "") (hp₁ : p₁ ≠ "") (hu₂ : u₂ ≠ "") (hp₂ : p₂ ≠ "")
    (hmiss : db₁.get_user_by_username (.str u₁) = none)
    (user : UserRec)
    (hfound : db₂.get_user_by_username (.str u₂) = some user)
    (hverify : sec.verify_password p₂ user.hashed_password = .ok false) :
    AuthService.authenticate_user sec db₁ u₁ p₁ now₁
      = .error (.http ⟨401, "Incorrect username or password", some "Bearer"⟩)
    ∧ AuthService.authenticate_user sec db₂ u₂ p₂ now₂
      = .error (.http ⟨401, "Incorrect username or password", some "Bearer"⟩) := by
  constructor
  · simp [AuthService.authenticate_user, hu₁, hp₁, hmiss]
  · simp [AuthService.authenticate_user, hu₂, hp₂, hfound, hverify]

/-- Claim C3 witness: the ghost-user and wrong-password failures coincide
on a concrete repository holding only the user `"real"`. -/
theorem authenticate_enumeration_resistant_witness :
    AuthService.authenticate_user testSecurity emptyDB "ghost" "anything" 0
      = .error (.http ⟨401, "Incorrect username or password", some "Bearer"⟩)
    ∧ AuthService.authenticate_user testSecurity
        ⟨fun v => if v = .str "real" then
            some ⟨1, "real", "r@x.io", "hsecret", true, false, 0, 0⟩
          else none⟩ "real" "wrong" 0
      = .error (.http ⟨401, "Incorrect username or password", some "Bearer"⟩) :=
  authenticate_enumeration_resistant testSecurity emptyDB
    ⟨fun v => if v = .str "real" then
        some ⟨1, "real", "r@x.io", "hsecret", true, false, 0, 0⟩
      else none⟩
    "ghost" "anything" "real" "wrong" 0 0
    (by decide) (by decide) (by decide) (by decide) rfl
    ⟨1, "real", "r@x.io", "hsecret", true, false, 0, 0⟩ rfl rfl

/-- Claim C4 counterexample: `hash_password` does let an internal library
exception escape — with a hashing callable that raises, the call on a
valid password propagates the raised exception to the caller instead of
converting it. -/
theorem hash_password_propagates_library_exception :
    Security.hash_password badSecurity "password123"
      = .error (.otherExc "bcrypt failure") := rfl

/-- Claim C4 (amended) — `verify_password` and `decode_access_token`
never let an exception escape: for every injected verifier (raising or
not) and every token, both calls return normally, verification with a
boolean and decoding with an optional subject.  `hash_password`, by
contrast, re-raises what its library throws. -/
theorem verify_and_decode_contain_exceptions (sec : Security) (p h : String)
    (tok : TokenStr) (now : Int) :
    (∃ b, sec.verify_password p h = .ok b)
    ∧ (∃ v, sec.decode_access_token tok now = .ok v) := by
  constructor
  · unfold Security.verify_password
    split
    · exact ⟨false, rfl⟩
    · cases hv : sec._verify_password p h with
      | ok b => exact ⟨b, by simp [hv]⟩
      | error e => exact ⟨false, by simp [hv]⟩
  · exact ⟨_, rfl⟩

/-- Claim C5 counterexample: a payload whose `"sub"` claim is present but
equal to the empty string is not rejected with the 400 invalid-payload
error — `create_access_token` proceeds to sign it. -/
theorem create_access_token_signs_empty_subject :
    Security.create_access_token testSecurity [("sub", .str "")] none 0
      = .ok (.signed ⟨[("sub", .str ""), ("exp", .int 1800)],
          "secret", "HS256"⟩) := rfl

/-- Claim C5 (amended) — `create_access_token` rejects with the 400
invalid-payload error exactly the payloads with no `"sub"` key (a
presence check only), and signs every payload carrying the key, the
empty-string subject included. -/
theorem create_access_token_sub_presence_only (sec : Security)
    (data : JDict) (delta : Option Int) (now : Int) :
    (data.containsKey "sub" = false →
      sec.create_access_token data delta now
        = .error ⟨400, "Payload must include sub", none⟩)
    ∧ (data.containsKey "sub" = true →
      sec.create_access_token data delta now
        = .ok (JWTHandler.create_access_token sec.jwt_handler data delta now)) := by
  constructor <;> intro h <;> simp [Security.create_access_token, h]

/-- Claim C5 (amended) witness: a payload without `"sub"` is rejected with
400, and one with `"sub"` present is signed. -/
theorem create_access_token_sub_presence_only_witness :
    Security.create_access_token testSecurity [("name", .str "alice")] none 0
      = .error ⟨400, "Payload must include sub", none⟩
    ∧ Security.create_access_token testSecurity [("sub", .str "alice")] none 0
      = .ok (JWTHandler.create_access_token testSecurity.jwt_handler
          [("sub", .str "alice")] none 0) :=
  ⟨(create_access_token_sub_presence_only testSecurity _ none 0).1 (by decide),
   (create_access_token_sub_presence_only testSecurity _ none 0).2 (by decide)⟩

/-- Claim C6 — fail-closed verification: `verify_password` returns
`False` without raising when the plaintext is empty, when the stored
hash is empty, or when the injected verifier raises; when both inputs
are non-empty and the verifier returns a boolean, that boolean is
returned. -/
theorem verify_password_fail_closed (sec : Security) (p h : String) :
    (p = "" → sec.verify_password p h = .ok false)
    ∧ (h = "" → sec.verify_password p h = .ok false)
    ∧ (∀ e, sec._verify_password p h = .error e → sec.verify_password p h = .ok false)
    ∧ (∀ b, p ≠ "" → h ≠ "" → sec._verify_password p h = .ok b →
        sec.verify_password p h = .ok b) := by
  refine ⟨?_, ?_, ?_, ?_⟩
  · intro hp; simp [Security.verify_password, hp]
  · intro hh; simp [Security.verify_password, hh]
  · intro e he
    unfold Security.verify_password
    split
    · rfl
    · simp [he]
  · intro b hp hh hb
    simp [Security.verify_password, hp, hh, hb]

/-- Claim C6 witness: a raising verifier yields `False`, and a matching
pair under the working verifier yields `True`. -/
theorem verify_password_fail_closed_witness :
    Security.verify_password badSecurity "x" "y" = .ok false
    ∧ Security.verify_password testSecurity "x" "hx" = .ok true := by
  constructor
  · exact (verify_password_fail_closed badSecurity "x" "y").2.2.1
      (.otherExc "bcrypt failure") rfl
  · exact (verify_password_fail_closed testSecurity "x" "hx").2.2.2 true
      (by decide) (by decide) rfl

/-- The resolution stage `resolve_token` never produces either of the two header-parsing
failures: its only errors are the decode rejection (401, `"Invalid or
expired token"`) and the missing-user rejection (404). -/
theorem resolve_token_ne_parse_errors (sec : Security) (db : DB)
    (tok : TokenStr) (now : Int) :
    Dependencies.resolve_token sec db tok now
      ≠ .error (.http ⟨401, "Invalid token format", none⟩)
    ∧ Dependencies.resolve_token sec db tok now
      ≠ .error (.http ⟨401, "Token cannot be empty", none⟩) := by
  constructor <;>
  · simp only [Dependencies.resolve_token, Security.decode_access_token]
    split
    · simp
    · split
      · simp
      · split
        · simp
        · simp

/-- Claim C7 — bearer-header parsing: `dependencies.get_current_user`
fails with one of its two pre-decode 401 rejections exactly when the
stripped header does not start with `"Bearer "` or the remainder after
the prefix strips to the empty string; otherwise it hands exactly the
stripped, non-empty remainder to token decoding and identity
resolution. -/
theorem bearer_header_parsing (sec : Security) (db : DB)
    (tokenOf : String → TokenStr) (v : String) (now : Int) :
    ((Dependencies.get_current_user sec db tokenOf v now
        = .error (.http ⟨401, "Invalid token format", none⟩)
      ∨ Dependencies.get_current_user sec db tokenOf v now
        = .error (.http ⟨401, "Token cannot be empty", none⟩))
      ↔ (pyStartsWith (pyStrip v) "Bearer " = false
         ∨ pyStrip (pyDropChars (pyStrip v) 7) = ""))
    ∧ (pyStartsWith (pyStrip v) "Bearer " = true →
        pyStrip (pyDropChars (pyStrip v) 7) ≠ "" →
        Dependencies.get_current_user sec db tokenOf v now
          = Dependencies.resolve_token sec db
              (tokenOf (pyStrip (pyDropChars (pyStrip v) 7))) now) := by
  have hrt := resolve_token_ne_parse_errors sec db
    (tokenOf (pyStrip (pyDropChars (pyStrip v) 7))) now
  by_cases hB : pyStartsWith (pyStrip v) "Bearer " = true
  · have hv : ¬ v = "" := by
      intro hv0
      subst hv0
      exact absurd hB (by decide)
    by_cases hr : pyStrip (pyDropChars (pyStrip v) 7) = ""
    · have hgoal : Dependencies.get_current_user sec db tokenOf v now
          = .error (.http ⟨401, "Token cannot be empty", none⟩) := by
        simp [Dependencies.get_current_user, hv, hB, hr]
      refine ⟨⟨fun _ => Or.inr hr, fun _ => Or.inr hgoal⟩, ?_⟩
      intro _ hcon
      exact absurd hr hcon
    · have hgoal : Dependencies.get_current_user sec db tokenOf v now
          = Dependencies.resolve_token sec db
              (tokenOf (pyStrip (pyDropChars (pyStrip v) 7))) now := by
        simp [Dependencies.get_current_user, hv, hB, hr]
      refine ⟨?_, fun _ _ => hgoal⟩
      constructor
      · rintro (hc | hc)
        · rw [hgoal] at hc
          exact absurd hc hrt.1
        · rw [hgoal] at hc
          exact absurd hc hrt.2
      · rintro (hc | hc)
        · rw [hB] at hc
          exact Bool.noConfusion hc
        · exact absurd hc hr
  · have hB0 : pyStartsWith (pyStrip v) "Bearer " = false := by
      simpa using hB
    have hgoal : Dependencies.get_current_user sec db tokenOf v now
        = .error (.http ⟨401, "Invalid token format", none⟩) := by
      simp [Dependencies.get_current_user, hB0]
    refine ⟨⟨fun _ => Or.inl hB0, fun _ => Or.inl hgoal⟩, ?_⟩
    intro hc
    exact absurd hc hB

/-- Claim C7 witness: the header `"no-bearer"` is rejected as malformed,
and the header `"  Bearer  abc  "` delegates exactly the remainder
`"abc"` to token resolution. -/
theorem bearer_header_parsing_witness :
    (Dependencies.get_current_user testSecurity emptyDB
        (fun _ => .garbage "g") "no-bearer" 0
        = .error (.http ⟨401, "Invalid token format", none⟩)
      ∨ Dependencies.get_current_user testSecurity emptyDB
        (fun _ => .garbage "g") "no-bearer" 0
        = .error (.http ⟨401, "Token cannot be empty", none⟩))
    ∧ Dependencies.get_current_user testSecurity emptyDB
        (fun _ => .garbage "g") "  Bearer  abc  " 0
      = Dependencies.resolve_token testSecurity emptyDB
          ((fun _ => TokenStr.garbage "g")
            (pyStrip (pyDropChars (pyStrip "  Bearer  abc  ") 7))) 0 :=
  ⟨(bearer_header_parsing testSecurity emptyDB (fun _ => .garbage "g")
      "no-bearer" 0).1.mpr (Or.inl (by decide)),
   (bearer_header_parsing testSecurity emptyDB (fun _ => .garbage "g")
      "  Bearer  abc  " 0).2 (by decide) (by decide)⟩

/-- Claim C8 — admin gate: `get_admin_user` rejects with the 403
insufficient-privilege error exactly when the administrative flag of the
authenticated identity is false, and otherwise returns the identity
value unchanged; it is a pure function of that identity alone. -/
theorem admin_gate_flag (u : UserResponse) :
    (u.is_superuser = false →
      Dependencies.get_admin_user u
        = .error ⟨403, "Admin access required", none⟩)
    ∧ (u.is_superuser = true → Dependencies.get_admin_user u = .ok u) := by
  constructor <;> intro h <;> simp [Dependencies.get_admin_user, h]

/-- Claim C8 witness: a non-admin identity is rejected with 403 and an
admin identity passes through unchanged. -/
theorem admin_gate_flag_witness :
    Dependencies.get_admin_user ⟨1, "bob", "bob@x.io", true, false, 0, 0⟩
      = .error ⟨403, "Admin access required", none⟩
    ∧ Dependencies.get_admin_user ⟨2, "root", "root@x.io", true, true, 0, 0⟩
      = .ok ⟨2, "root", "root@x.io", true, true, 0, 0⟩ :=
  ⟨(admin_gate_flag ⟨1, "bob", "bob@x.io", true, false, 0, 0⟩).1 rfl,
   (admin_gate_flag ⟨2, "root", "root@x.io", true, true, 0, 0⟩).2 rfl⟩

/-- Claim C9 counterexample: a call that requests the ttl zero does not
get `exp = now + ttl` — at issuance time 0 with a requested zero ttl the
issued `exp` claim is `1800` (the configured default of 30 minutes),
not `0 + 0`, because `expires_delta or default` treats a zero
`timedelta` as absent. -/
theorem exp_zero_ttl_uses_default :
    (JWTHandler.create_access_token testCfg [("sub", .str "alice")]
        (some 0) 0).expClaim = some 1800
    ∧ (1800 : Int) ≠ 0 + 0 :=
  ⟨rfl, by decide⟩

/-- Claim C9 (amended) — the issued `exp` claim equals the issuance time
plus the requested ttl whenever a non-zero ttl is supplied; when no ttl
is supplied, or the supplied ttl is the falsy zero `timedelta`, the
configured `ACCESS_TOKEN_EXP_MIN` default (30 minutes in `Settings`) is
used instead. -/
theorem exp_is_issuance_plus_ttl (cfg : JWTConfig) (data : JDict)
    (now : Int) :
    (∀ d : Int, d ≠ 0 →
      (JWTHandler.create_access_token cfg data (some d) now).expClaim
        = some (now + d))
    ∧ (JWTHandler.create_access_token cfg data none now).expClaim
        = some (now + cfg.ACCESS_TOKEN_EXPIRE_MINUTES * 60)
    ∧ (JWTHandler.create_access_token cfg data (some 0) now).expClaim
        = some (now + cfg.ACCESS_TOKEN_EXPIRE_MINUTES * 60) := by
  refine ⟨?_, ?_, ?_⟩
  · intro d hd
    simp [JWTHandler.create_access_token, jwtEncode, TokenStr.expClaim,
      hd, JDict.get_set_self]
  · simp [JWTHandler.create_access_token, jwtEncode, TokenStr.expClaim,
      JDict.get_set_self]
  · simp [JWTHandler.create_access_token, jwtEncode, TokenStr.expClaim,
      JDict.get_set_self]

/-- Claim C9 (amended) witness: issuance at time 5 with ttl 60 seconds
expires at 65; with no ttl, and with the zero ttl, it expires at
5 + 30 minutes = 1805. -/
theorem exp_is_issuance_plus_ttl_witness :
    (JWTHandler.create_access_token testCfg [("sub", .str "bob")]
        (some 60) 5).expClaim = some 65
    ∧ (JWTHandler.create_access_token testCfg [("sub", .str "bob")]
        none 5).expClaim = some 1805
    ∧ (JWTHandler.create_access_token testCfg [("sub", .str "bob")]
        (some 0) 5).expClaim = some 1805 :=
  ⟨(exp_is_issuance_plus_ttl testCfg [("sub", .str "bob")] 5).1 60 (by decide),
   (exp_is_issuance_plus_ttl testCfg [("sub", .str "bob")] 5).2.1,
   (exp_is_issuance_plus_ttl testCfg [("sub", .str "bob")] 5).2.2⟩

/-- Claim C10 — empty-subject divergence: a token correctly signed for
the empty-string subject and not yet expired decodes to the empty string
rather than `None`; `AuthService.get_current_user`, which compares the
result against `None` only, proceeds to a repository lookup for the
empty username (yielding 404 or the found user, never its 401), while
the dependency-injection path, which tests the result for falsiness,
rejects the very same token with its 401 — both through
`resolve_token` and through the full header-parsing entry point. -/
theorem empty_subject_decode_divergence (sec : Security) (db : DB)
    (ttl now t : Int) (httl : ttl ≠ 0) (ht : t < now + ttl) :
    sec.decode_access_token
        (JWTHandler.create_access_token sec.jwt_handler
          [("sub", .str "")] (some ttl) now) t
      = .ok (some (.str ""))
    ∧ AuthService.get_current_user sec db
        (JWTHandler.create_access_token sec.jwt_handler
          [("sub", .str "")] (some ttl) now) t
      = (match db.get_user_by_username (.str "") with
         | none => .error (.http ⟨404, "User not found", none⟩)
         | some user => .ok (UserResponse.model_validate user))
    ∧ Dependencies.resolve_token sec db
        (JWTHandler.create_access_token sec.jwt_handler
          [("sub", .str "")] (some ttl) now) t
      = .error (.http ⟨401, "Invalid or expired token", none⟩)
    ∧ (∀ tokenOf : String → TokenStr,
        tokenOf "tok" = JWTHandler.create_access_token sec.jwt_handler
          [("sub", .str "")] (some ttl) now →
        Dependencies.get_current_user sec db tokenOf "Bearer tok" t
          = .error (.http ⟨401, "Invalid or expired token", none⟩)) := by
  have h1 : ¬ now + ttl < t := by omega
  have hdec : JWTHandler.decode_access_token sec.jwt_handler
      (JWTHandler.create_access_token sec.jwt_handler
        [("sub", .str "")] (some ttl) now) t
      = some (.str "") := by
    simp [JWTHandler.create_access_token, JWTHandler.decode_access_token,
      jwtEncode, jwtDecode, JDict.set, JDict.get, httl, h1]
  have hresolve : Dependencies.resolve_token sec db
      (JWTHandler.create_access_token sec.jwt_handler
        [("sub", .str "")] (some ttl) now) t
      = .error (.http ⟨401, "Invalid or expired token", none⟩) := by
    simp [Dependencies.resolve_token, Security.decode_access_token,
      hdec, JValue.truthy]
  refine ⟨?_, ?_, hresolve, ?_⟩
  · simp [Security.decode_access_token, hdec]
  · cases hdb : db.get_user_by_username (.str "") <;>
      simp [AuthService.get_current_user, Security.decode_access_token,
        hdec, hdb]
  · intro tokenOf htok
    unfold Dependencies.get_current_user
    rw [if_neg (by decide)]
    rw [if_neg (by decide)]
    have hrem : pyStrip (pyDropChars (pyStrip "Bearer tok") 7) = "tok" := by
      decide
    rw [hrem, htok]
    exact hresolve

/-- Claim C10 witness: the divergence at a concrete empty-subject token
issued at time 0 with a 100-second ttl and presented at time 50 against
an empty repository. -/
theorem empty_subject_decode_divergence_witness :
    Security.decode_access_token testSecurity
        (JWTHandler.create_access_token testCfg
          [("sub", .str "")] (some 100) 0) 50
      = .ok (some (.str ""))
    ∧ AuthService.get_current_user testSecurity emptyDB
        (JWTHandler.create_access_token testCfg
          [("sub", .str "")] (some 100) 0) 50
      = .error (.http ⟨404, "User not found", none⟩)
    ∧ Dependencies.resolve_token testSecurity emptyDB
        (JWTHandler.create_access_token testCfg
          [("sub", .str "")] (some 100) 0) 50
      = .error (.http ⟨401, "Invalid or expired token", none⟩)
    ∧ Dependencies.get_current_user testSecurity emptyDB
        (fun _ => JWTHandler.create_access_token testCfg
          [("sub", .str "")] (some 100) 0) "Bearer tok" 50
      = .error (.http ⟨401, "Invalid or expired token", none⟩) :=
  ⟨(empty_subject_decode_divergence testSecurity emptyDB 100 0 50
      (by decide) (by decide)).1,
   (empty_subject_decode_divergence testSecurity emptyDB 100 0 50
      (by decide) (by decide)).2.1,
   (empty_subject_decode_divergence testSecurity emptyDB 100 0 50
      (by decide) (by decide)).2.2.1,
   (empty_subject_decode_divergence testSecurity emptyDB 100 0 50
      (by decide) (by decide)).2.2.2
     (fun _ => JWTHandler.create_access_token testCfg
        [("sub", .str "")] (some 100) 0) rfl⟩
